import Mathlib

/-!
Verification of the probability / edge core of the esports trading bot.

The Python sources are embedded shallowly:
- floats are modelled as `ℚ` where the code is pure arithmetic, and as `ℝ`
  where the code calls `math.exp` / `math.log` (momentum decay, log-odds);
- dictionaries keyed by strings become association lists with `List.lookup`
  (dict keys are unique, so first-match lookup agrees with dict lookup);
- mutable objects become explicit state records with step functions.

Sources embedded below:
- `src/core/v2/models_v2.py` (SeriesState, MomentumTracker)
- `src/core/v2/impact_calculator_v2.py` (time curves, base impacts,
  context/momentum multipliers, impact calculation)
- `src/core/impact_calculator.py` (V1 lookup tables, time and probability
  multipliers, event impact)
- `src/core/probability_engine.py` and `src/core/v2/probability_engine_v2.py`
  (update_from_event / update_from_fight / calculate_from_state)
- `src/trading/edge_calculator.py` (EdgeCalculator.calculate_edge)
-/

/-! ## Series state (models_v2.py, class SeriesState) -/

inductive SeriesFormat where
  | BO1
  | BO3
  | BO5
deriving DecidableEq

structure SeriesState where
  format : SeriesFormat
  team1_wins : ℕ
  team2_wins : ℕ
  team1_name : String := "Team 1"
  team2_name : String := "Team 2"

/-- Source `SeriesState.games_to_win`: 1 for BO1, 2 for BO3, 3 otherwise. -/
def games_to_win : SeriesFormat → ℕ
  | SeriesFormat.BO1 => 1
  | SeriesFormat.BO3 => 2
  | SeriesFormat.BO5 => 3

/-- Source `SeriesState._calc_series_prob(t1, t2, p)`: recursive series win
probability; returns 1.0 once `t1` reaches `games_to_win` (checked first),
0.0 once `t2` does, else `p * P(t1+1, t2) + (1-p) * P(t1, t2+1)`. -/
def calc_series_prob (needed t1 t2 : ℕ) (p : ℚ) : ℚ :=
  if needed ≤ t1 then 1
  else if needed ≤ t2 then 0
  else p * calc_series_prob needed (t1 + 1) t2 p
       + (1 - p) * calc_series_prob needed t1 (t2 + 1) p
termination_by (needed - t1) + (needed - t2)
decreasing_by
  all_goals omega

/-- Source `SeriesState.series_probability(game_win_prob)`. -/
def series_probability (s : SeriesState) (p : ℚ) : ℚ :=
  calc_series_prob (games_to_win s.format) s.team1_wins s.team2_wins p

lemma calc_series_prob_of_t1_done (needed t1 t2 : ℕ) (p : ℚ) (h : needed ≤ t1) :
    calc_series_prob needed t1 t2 p = 1 := by
  rw [calc_series_prob]
  simp [h]

lemma calc_series_prob_of_t2_done (needed t1 t2 : ℕ) (p : ℚ)
    (h1 : t1 < needed) (h2 : needed ≤ t2) :
    calc_series_prob needed t1 t2 p = 0 := by
  rw [calc_series_prob]
  simp [h2, Nat.not_le.mpr h1]

lemma calc_series_prob_rec (needed t1 t2 : ℕ) (p : ℚ)
    (h1 : t1 < needed) (h2 : t2 < needed) :
    calc_series_prob needed t1 t2 p
      = p * calc_series_prob needed (t1 + 1) t2 p
        + (1 - p) * calc_series_prob needed t1 (t2 + 1) p := by
  rw [calc_series_prob]
  simp [Nat.not_le.mpr h1, Nat.not_le.mpr h2]

/-! ## Time curves (impact_calculator_v2.py, static methods) -/

/-- Source `ImpactCalculatorV2.lol_time_curve(minutes)`. -/
def lol_time_curve (minutes : ℚ) : ℚ :=
  if minutes < 0 then 0.5
  else if minutes < 10 then 0.5 + (minutes / 10) * 0.2
  else if minutes < 25 then 0.7 + ((minutes - 10) / 15) * 0.4
  else if minutes < 40 then 1.1 + ((minutes - 25) / 15) * 0.3
  else min 1.5 (1.4 + ((minutes - 40) / 20) * 0.1)

/-- Source `ImpactCalculatorV2.dota_time_curve(minutes)`. -/
def dota_time_curve (minutes : ℚ) : ℚ :=
  if minutes < 0 then 0.4
  else if minutes < 12 then 0.4 + (minutes / 12) * 0.2
  else if minutes < 30 then 0.6 + ((minutes - 12) / 18) * 0.4
  else if minutes < 50 then 1.0 + ((minutes - 30) / 20) * 0.2
  else min 1.2 (1.15 + ((minutes - 50) / 30) * 0.05)

/-- ASCII `str.lower()` (kernel-reducible replacement for `String.toLower`,
which the kernel cannot evaluate; the table keys are ASCII). -/
def lower_char (c : Char) : Char :=
  if 65 <= c.toNat && c.toNat <= 90 then Char.ofNat (c.toNat + 32) else c

/-- ASCII `str.lower()` on whole strings. -/
def str_lower (s : String) : String :=
  ⟨s.data.map lower_char⟩

/-- Source `str.startswith(p)` (kernel-reducible replacement for
`String.startsWith`). -/
def str_starts_with (s p : String) : Bool :=
  p.data.isPrefixOf s.data


/-! ## V1 impact calculator (impact_calculator.py, class ImpactCalculator) -/

structure EventImpact where
  base_impact : ℚ
  gold_value : ℤ
  description : String
deriving DecidableEq

/-- Source `ImpactCalculator.LOL_IMPACTS`: dict keyed by (event_type, context),
embedded as an association list in source order (keys are unique). -/
def LOL_IMPACTS : List ((String × String) × EventImpact) :=
  [(("kill", "solo"), ⟨0.008, 300, "Solo kill"⟩),
   (("kill", "default"), ⟨0.006, 300, "Kill"⟩),
   (("kill", "shutdown"), ⟨0.015, 700, "Shutdown bounty"⟩),
   (("kill", "first_blood"), ⟨0.012, 400, "First blood"⟩),
   (("tower", "outer"), ⟨0.015, 550, "Outer tower"⟩),
   (("tower", "inner"), ⟨0.020, 550, "Inner tower"⟩),
   (("tower", "inhibitor_tower"), ⟨0.030, 550, "Inhibitor tower"⟩),
   (("tower", "nexus_tower"), ⟨0.025, 50, "Nexus tower"⟩),
   (("tower", "first"), ⟨0.025, 650, "First tower"⟩),
   (("tower", "default"), ⟨0.018, 550, "Tower"⟩),
   (("dragon", "infernal"), ⟨0.018, 200, "Infernal Drake"⟩),
   (("dragon", "mountain"), ⟨0.020, 200, "Mountain Drake"⟩),
   (("dragon", "ocean"), ⟨0.015, 200, "Ocean Drake"⟩),
   (("dragon", "cloud"), ⟨0.012, 200, "Cloud Drake"⟩),
   (("dragon", "hextech"), ⟨0.016, 200, "Hextech Drake"⟩),
   (("dragon", "chemtech"), ⟨0.017, 200, "Chemtech Drake"⟩),
   (("dragon", "default"), ⟨0.016, 200, "Dragon"⟩),
   (("dragon", "soul"), ⟨0.12, 300, "Dragon Soul"⟩),
   (("dragon", "elder"), ⟨0.18, 350, "Elder Dragon"⟩),
   (("baron", "secure"), ⟨0.10, 1500, "Baron Nashor"⟩),
   (("baron", "steal"), ⟨0.14, 1500, "Baron stolen!"⟩),
   (("baron", "default"), ⟨0.10, 1500, "Baron Nashor"⟩),
   (("herald", "default"), ⟨0.02, 200, "Rift Herald"⟩),
   (("inhibitor", "default"), ⟨0.06, 50, "Inhibitor"⟩),
   (("teamfight", "won_small"), ⟨0.03, 800, "Won small fight (2-3 kills)"⟩),
   (("teamfight", "won_big"), ⟨0.06, 1500, "Won big teamfight (4+ kills)"⟩),
   (("teamfight", "ace"), ⟨0.10, 2500, "Ace! (killed all 5)"⟩)]

/-- Source `ImpactCalculator.DOTA_IMPACTS`. -/
def DOTA_IMPACTS : List ((String × String) × EventImpact) :=
  [(("kill", "solo"), ⟨0.006, 250, "Solo kill"⟩),
   (("kill", "default"), ⟨0.005, 250, "Kill"⟩),
   (("kill", "pickoff"), ⟨0.008, 300, "Pickoff"⟩),
   (("tower", "tier1"), ⟨0.015, 500, "Tier 1 Tower"⟩),
   (("tower", "tier2"), ⟨0.022, 600, "Tier 2 Tower"⟩),
   (("tower", "tier3"), ⟨0.035, 700, "Tier 3 Tower"⟩),
   (("tower", "tier4"), ⟨0.040, 800, "Tier 4 Tower"⟩),
   (("tower", "default"), ⟨0.020, 550, "Tower"⟩),
   (("barracks", "melee"), ⟨0.05, 225, "Melee Barracks"⟩),
   (("barracks", "ranged"), ⟨0.04, 150, "Ranged Barracks"⟩),
   (("barracks", "default"), ⟨0.045, 200, "Barracks"⟩),
   (("barracks", "mega"), ⟨0.15, 0, "Mega Creeps!"⟩),
   (("roshan", "first"), ⟨0.06, 600, "First Roshan (Aegis)"⟩),
   (("roshan", "second"), ⟨0.08, 800, "Second Roshan (Aegis + Cheese)"⟩),
   (("roshan", "third"), ⟨0.10, 1000, "Third Roshan (Aegis + Cheese + Refresher)"⟩),
   (("roshan", "steal"), ⟨0.12, 800, "Roshan stolen!"⟩),
   (("roshan", "default"), ⟨0.07, 700, "Roshan"⟩),
   (("teamfight", "won_small"), ⟨0.025, 700, "Won small fight"⟩),
   (("teamfight", "won_big"), ⟨0.05, 1300, "Won big teamfight"⟩),
   (("teamfight", "wipe"), ⟨0.08, 2000, "Team wipe!"⟩)]

/-- Source `ImpactCalculator.LOL_TIME_MULTIPLIERS`: dict (min,max) -> multiplier,
in source order. -/
def LOL_TIME_MULTIPLIERS : List ((ℚ × ℚ) × ℚ) :=
  [((0, 5), 0.6), ((5, 10), 0.8), ((10, 20), 1.0),
   ((20, 30), 1.15), ((30, 40), 1.25), ((40, 100), 1.35)]

/-- Source `ImpactCalculator.DOTA_TIME_MULTIPLIERS`. -/
def DOTA_TIME_MULTIPLIERS : List ((ℚ × ℚ) × ℚ) :=
  [((0, 10), 0.5), ((10, 20), 0.7), ((20, 30), 0.9),
   ((30, 40), 1.0), ((40, 50), 1.1), ((50, 100), 1.15)]

/-- Source `ImpactCalculator._get_time_multiplier`: first bracket with
`min_time <= t < max_time`, else the last value in the table
(`list(values())[-1]`). -/
def get_time_multiplier (tbl : List ((ℚ × ℚ) × ℚ)) (t : ℚ) : ℚ :=
  match tbl.find? (fun e => decide (e.1.1 ≤ t) && decide (t < e.1.2)) with
  | some e => e.2
  | none => (tbl.getLastD ((0, 0), 1)).2

/-- Source `ImpactCalculator._get_probability_multiplier`:
`max(0.5, 1.0 - abs(p - 0.5) * 1.0)` (linear falloff, floored at 0.5). -/
def get_probability_multiplier (p : ℚ) : ℚ :=
  max 0.5 (1 - |p - 0.5|)

/-- Source `ImpactCalculator.get_event_impact`: looks up
`(event_type.lower(), context.lower())`, falls back to
`(event_type.lower(), "default")`, and returns impact 0 with an
"Unknown event" record if neither key exists; otherwise the impact is
`base_impact * time_multiplier * probability_multiplier`. -/
def get_event_impact (impacts : List ((String × String) × EventImpact))
    (time_mults : List ((ℚ × ℚ) × ℚ))
    (event_type context : String) (game_time p : ℚ) : ℚ × EventImpact :=
  match impacts.lookup (str_lower event_type, str_lower context) with
  | some info =>
      (info.base_impact * get_time_multiplier time_mults game_time
         * get_probability_multiplier p, info)
  | none =>
      match impacts.lookup (str_lower event_type, "default") with
      | some info =>
          (info.base_impact * get_time_multiplier time_mults game_time
             * get_probability_multiplier p, info)
      | none => (0, ⟨0, 0, "Unknown event"⟩)

/-! ## V2 impact calculator (impact_calculator_v2.py, class ImpactCalculatorV2) -/

/-- Source `EventContext` (impact_calculator_v2.py): rich event context.
Gold/count fields are Python ints (`ℤ`), times are floats (`ℚ`). -/
structure EventContext where
  game_time : ℚ := 15
  gold_diff : ℤ := 0
  kill_diff : ℤ := 0
  tower_diff : ℤ := 0
  dragon_diff : ℤ := 0
  killer_gold : ℤ := 0
  victim_gold : ℤ := 0
  victim_streak : ℤ := 0
  is_shutdown : Bool := false
  is_first_blood : Bool := false
  assist_count : ℤ := 0
  objective_number : ℤ := 1
  is_soul_point : Bool := false
  is_contested : Bool := false
  is_steal : Bool := false
  fight_kills_for : ℤ := 0
  fight_kills_against : ℤ := 0
  fight_duration_seconds : ℚ := 0
  recent_kills_for : ℤ := 0
  recent_kills_against : ℤ := 0
  recent_objectives_for : ℤ := 0
  towers_remaining_us : ℤ := 11
  towers_remaining_them : ℤ := 11
  inhibs_down_us : ℤ := 0
  inhibs_down_them : ℤ := 0
deriving DecidableEq

/-- Source `ImpactCalculatorV2.LOL_BASE_IMPACTS` (association list, source order). -/
def LOL_BASE_IMPACTS : List (String × ℚ) :=
  [("kill", 0.006), ("kill_solo", 0.008), ("kill_first_blood", 0.010),
   ("tower_outer", 0.012), ("tower_inner", 0.018), ("tower_inhib", 0.028),
   ("tower_nexus", 0.020), ("tower_first", 0.020),
   ("dragon_1", 0.012), ("dragon_2", 0.016), ("dragon_3", 0.022),
   ("dragon_4_soul", 0.10), ("dragon_elder", 0.16),
   ("dragon_infernal", 1.15), ("dragon_mountain", 1.20), ("dragon_ocean", 1.00),
   ("dragon_cloud", 0.90), ("dragon_hextech", 1.05), ("dragon_chemtech", 1.10),
   ("baron", 0.085), ("baron_steal", 0.12),
   ("herald_1", 0.018), ("herald_2", 0.022),
   ("inhibitor", 0.055),
   ("fight_base", 0.015), ("fight_per_kill", 0.012), ("fight_ace_bonus", 0.04)]

/-- Source `ImpactCalculatorV2.DOTA_BASE_IMPACTS`. -/
def DOTA_BASE_IMPACTS : List (String × ℚ) :=
  [("kill", 0.005), ("kill_solo", 0.007), ("kill_pickoff", 0.008),
   ("tower_t1", 0.012), ("tower_t2", 0.020), ("tower_t3", 0.032),
   ("tower_t4", 0.038),
   ("barracks_melee", 0.045), ("barracks_ranged", 0.035), ("barracks_mega", 0.14),
   ("roshan_1", 0.055), ("roshan_2", 0.075), ("roshan_3", 0.095),
   ("roshan_steal", 0.11),
   ("fight_base", 0.012), ("fight_per_kill", 0.010), ("fight_wipe_bonus", 0.035)]

/-- Source `ImpactCalculatorV2._get_base_impact`: direct dict lookup, then the first
key that starts with `event_type` (dict iteration = insertion order), then the
default fallback `0.005` for an unknown event type. -/
def get_base_impact (base_impacts : List (String × ℚ)) (event_type : String) : ℚ :=
  match base_impacts.lookup event_type with
  | some v => v
  | none =>
      match base_impacts.find? (fun kv => str_starts_with kv.1 event_type) with
      | some kv => kv.2
      | none => 0.005

/-- Source `ImpactCalculatorV2._get_context_multiplier` (explanation strings elided):
comeback/snowball factor from the acting team's gold differential, victim-value
factor for kills, map-state pressure, soul-point, contested and steal bonuses,
multiplied together. -/
def get_context_multiplier (event_type : String) (ctx : EventContext)
    (for_team : ℕ) : ℚ :=
  let our_gold_diff : ℤ := if for_team = 1 then ctx.gold_diff else -ctx.gold_diff
  let m1 : ℚ :=
    if our_gold_diff < -5000 then 1.25
    else if our_gold_diff < -2000 then 1.12
    else if our_gold_diff > 8000 then 0.75
    else if our_gold_diff > 4000 then 0.88
    else 1
  let m2 : ℚ :=
    if str_starts_with event_type ("kill") = true ∧ 0 < ctx.victim_gold then
      let avg_gold_at_time : ℚ := 300 + ctx.game_time * 400
      let gold_ratio : ℚ := (ctx.victim_gold : ℚ) / max avg_gold_at_time 1
      if gold_ratio > 1.5 then 1.20
      else if gold_ratio > 1.2 then 1.10
      else if gold_ratio < 0.7 then 0.85
      else 1
    else 1
  let m3 : ℚ :=
    if 0 < ctx.inhibs_down_them ∧
        (event_type = "baron" ∨ event_type = "dragon" ∨ event_type = "elder") then
      1.15
    else 1
  let m4 : ℚ := if ctx.towers_remaining_us ≤ 3 then 1.10 else 1
  let m5 : ℚ :=
    if str_starts_with event_type ("dragon") = true ∧ ctx.is_soul_point = true then 1.30
    else 1
  let m6 : ℚ := if ctx.is_contested = true then 1.15 else 1
  let m7 : ℚ := if ctx.is_steal = true then 1.35 else 1
  m1 * m2 * m3 * m4 * m5 * m6 * m7

/-- Source `ImpactCalculatorV2._get_momentum_multiplier` (explanation strings elided):
context-recency factor plus the internal streak factor counting tracked recent
events of `for_team` within the last 1.5 minutes. -/
def get_momentum_multiplier (recent_events : List (ℚ × String × ℕ))
    (ctx : EventContext) (for_team : ℕ) : ℚ :=
  let recent_for := ctx.recent_kills_for + ctx.recent_objectives_for
  let recent_against := ctx.recent_kills_against
  let m1 : ℚ :=
    if 3 ≤ recent_for ∧ recent_against = 0 then 1.15
    else if 2 ≤ recent_for ∧ recent_against ≤ 1 then 1.08
    else if 3 ≤ recent_against ∧ recent_for = 0 then 1.12
    else 1
  let recent_same_team : ℕ :=
    (recent_events.filter
      (fun e => decide (ctx.game_time - e.1 < 1.5) && decide (e.2.2 = for_team))).length
  if 2 ≤ recent_same_team then m1 * (1 + (recent_same_team : ℚ) * 0.03) else m1

/-- Source `ImpactCalculatorV2._track_event`: append the event, keep only entries
from the last 2 minutes. -/
def track_event (recent_events : List (ℚ × String × ℕ))
    (game_time : ℚ) (event_type : String) (team : ℕ) : List (ℚ × String × ℕ) :=
  (recent_events ++ [(game_time, event_type, team)]).filter
    (fun e => decide (game_time - 2 < e.1))

/-- Source `ImpactCalculatorV2.calculate_impact` (final impact only;
confidence/explanation elided): `base * time * context * momentum`, negated
when the event is for team 2. -/
def calculate_impact_v2 (base_impacts : List (String × ℚ)) (time_curve : ℚ → ℚ)
    (recent_events : List (ℚ × String × ℕ))
    (event_type : String) (ctx : EventContext) (for_team : ℕ) : ℚ :=
  let base := get_base_impact base_impacts event_type
  let time_mult := time_curve ctx.game_time
  let context_mult := get_context_multiplier event_type ctx for_team
  let momentum_mult := get_momentum_multiplier recent_events ctx for_team
  let final := base * time_mult * context_mult * momentum_mult
  if for_team = 2 then -final else final

/-- Source `ImpactCalculatorV2.calculate_fight_impact` (final impact only): base fight
impact plus per-kill advantage and ace bonus, scaled by the three multipliers,
negated when the fight is lost and when computed for team 2. -/
def calculate_fight_impact_v2 (base_impacts : List (String × ℚ))
    (time_curve : ℚ → ℚ) (recent_events : List (ℚ × String × ℕ))
    (kills_for kills_against : ℕ) (ctx : EventContext) (for_team : ℕ) : ℚ :=
  let net_kills : ℤ := (kills_for : ℤ) - (kills_against : ℤ)
  let total_kills : ℤ := (kills_for : ℤ) + (kills_against : ℤ)
  if net_kills = 0 then 0
  else
    let base0 := ((base_impacts.lookup ("fight_base")).getD 0.015)
    let kill_advantage : ℤ := |net_kills|
    let per_kill := ((base_impacts.lookup ("fight_per_kill")).getD 0.012)
    let base1 := base0 + ((kill_advantage : ℚ) - 1) * per_kill
    let base2 :=
      if 5 ≤ kills_for ∨ (4 ≤ kills_for ∧ 7 ≤ total_kills) then
        base1 + ((base_impacts.lookup ("fight_ace_bonus")).getD 0.04)
      else base1
    let time_mult := time_curve ctx.game_time
    let context_mult := get_context_multiplier ("fight") ctx for_team
    let momentum_mult := get_momentum_multiplier recent_events ctx for_team
    let final0 := base2 * time_mult * context_mult * momentum_mult
    let final1 := if net_kills < 0 then -final0 else final0
    if for_team = 2 then -final1 else final1

/-- Source `ImpactCalculatorV2._calculate_confidence`. -/
def calculate_confidence_v2 (ctx : EventContext) : ℚ :=
  let c0 : ℚ := 0.7
  let c1 := if ctx.gold_diff ≠ 0 then c0 + 0.05 else c0
  let c2 := if ctx.game_time > 10 then c1 + 0.05 else c1
  let c3 := if 0 < ctx.killer_gold ∨ 0 < ctx.victim_gold then c2 + 0.05 else c2
  let c4 := if ctx.towers_remaining_us < 11 then c3 + 0.03 else c3
  min 0.95 c4

/-! ## Momentum tracker (models_v2.py, class MomentumTracker) -/

structure MomentumEvent where
  game_time : ℚ
  event_type : String
  team : ℕ
  impact : ℚ
deriving DecidableEq

/-- Mutable state of `MomentumTracker` (`decay_minutes` defaults to 3.0). -/
structure MomentumTracker where
  decay_minutes : ℚ := 3
  events : List MomentumEvent := []
  current_time : ℚ := 0
deriving DecidableEq

/-- Source `MomentumTracker.add_event` followed by `_prune_old_events`: append the
event, set the clock, drop events older than `2 * decay_minutes`. -/
def add_event (tr : MomentumTracker) (game_time : ℚ) (event_type : String)
    (team : ℕ) (impact : ℚ) : MomentumTracker :=
  let events := tr.events ++ [⟨game_time, event_type, team, impact⟩]
  let cutoff := game_time - tr.decay_minutes * 2
  ⟨tr.decay_minutes, events.filter (fun e => decide (cutoff < e.game_time)), game_time⟩

/-- One summand of `MomentumTracker.get_momentum_score`:
`impact * exp(-age / decay_minutes) * direction` where
`age = current_time - event.game_time` and direction is `+1` for team 1,
`-1` otherwise (the current time is passed as a real so the decay limit can
be stated). -/
noncomputable def event_contribution (decay : ℚ) (current_time : ℝ)
    (e : MomentumEvent) : ℝ :=
  (e.impact : ℝ) * Real.exp (-(current_time - (e.game_time : ℝ)) / (decay : ℝ))
    * (if e.team = 1 then 1 else -1)

/-- Source `MomentumTracker.get_momentum_score`: sum of the per-event contributions
(0.0 for an empty window). -/
noncomputable def get_momentum_score (tr : MomentumTracker) : ℝ :=
  (tr.events.map (event_contribution tr.decay_minutes (tr.current_time : ℝ))).sum

/-- Source `MomentumTracker.get_momentum_adjustment`: `max(-0.03, min(0.03, score * 0.5))`. -/
noncomputable def get_momentum_adjustment (tr : MomentumTracker) : ℝ :=
  max (-0.03) (min 0.03 (get_momentum_score tr * 0.5))

/-! ## V2 probability engine (probability_engine_v2.py, class ProbabilityEngineV2) -/

/-- Source `EnhancedGameState` (models_v2.py): the fields read by
`calculate_from_state` (match metadata elided). -/
structure EnhancedGameState where
  game_time_seconds : ℤ := 0
  team1_kills : ℤ := 0
  team1_gold : ℤ := 0
  team1_towers : ℤ := 0
  team1_dragons : ℤ := 0
  team1_barons : ℤ := 0
  team1_heralds : ℤ := 0
  team1_inhibs : ℤ := 0
  team1_has_soul : Bool := false
  team1_has_elder : Bool := false
  team1_has_baron : Bool := false
  team2_kills : ℤ := 0
  team2_gold : ℤ := 0
  team2_towers : ℤ := 0
  team2_dragons : ℤ := 0
  team2_barons : ℤ := 0
  team2_heralds : ℤ := 0
  team2_inhibs : ℤ := 0
  team2_has_soul : Bool := false
  team2_has_elder : Bool := false
  team2_has_baron : Bool := false
  team1_roshan : ℤ := 0
  team2_roshan : ℤ := 0
  team1_has_aegis : Bool := false
  team2_has_aegis : Bool := false
  team1_rax : ℤ := 0
  team2_rax : ℤ := 0

def EnhancedGameState.game_time_minutes (s : EnhancedGameState) : ℚ :=
  (s.game_time_seconds : ℚ) / 60

def EnhancedGameState.gold_diff (s : EnhancedGameState) : ℤ :=
  s.team1_gold - s.team2_gold

def EnhancedGameState.kill_diff (s : EnhancedGameState) : ℤ :=
  s.team1_kills - s.team2_kills

def EnhancedGameState.tower_diff (s : EnhancedGameState) : ℤ :=
  s.team1_towers - s.team2_towers

/-- Source `ProbabilityEngineV2.LOL_TIME_WEIGHTS` (source order). -/
def LOL_TIME_WEIGHTS : List ((ℚ × ℚ) × ℚ) :=
  [((0, 6), 0.4), ((6, 14), 0.6), ((14, 22), 0.85), ((22, 32), 1.0), ((32, 100), 1.15)]

/-- Source `ProbabilityEngineV2._get_time_weight`: first matching bracket, default
1.0 (the dota engine has an empty weight table, so it always gets 1.0). -/
def get_time_weight (weights : List ((ℚ × ℚ) × ℚ)) (t : ℚ) : ℚ :=
  match weights.find? (fun e => decide (e.1.1 ≤ t) && decide (t < e.1.2)) with
  | some e => e.2
  | none => 1

/-- Source `ProbabilityEngineV2._prob_to_log_odds` (input clamped to [0.001, 0.999]). -/
noncomputable def prob_to_log_odds (p : ℝ) : ℝ :=
  Real.log (max 0.001 (min 0.999 p) / (1 - max 0.001 (min 0.999 p)))

/-- Source `ProbabilityEngineV2._log_odds_to_prob` (the float OverflowError guard is
unreachable over ℝ). -/
noncomputable def log_odds_to_prob (x : ℝ) : ℝ :=
  1 / (1 + Real.exp (-x))

/-- Source `ProbabilityEngineV2._apply_probability_scaling` over ℚ:
`impact * max(0.4, 1 - distance^2 * 2)` with `distance = |p - 0.5|`. -/
def apply_probability_scaling (impact current_prob : ℚ) : ℚ :=
  let distance := |current_prob - 0.5|
  let scale := max 0.4 (1 - distance * distance * 2)
  impact * scale

/-- Source `ProbabilityEngineV2._apply_probability_scaling`, real-valued (used by the
engine whose probability is real-valued because of the log-odds path). -/
noncomputable def apply_probability_scalingR (impact current_prob : ℝ) : ℝ :=
  let distance := |current_prob - 0.5|
  let scale := max 0.4 (1 - distance * distance * 2)
  impact * scale

/-- Table selection from `ImpactCalculatorV2.__init__`. -/
def base_impacts_of (game : String) : List (String × ℚ) :=
  if game = "lol" then LOL_BASE_IMPACTS else DOTA_BASE_IMPACTS

/-- Curve selection from `ImpactCalculatorV2.__init__`. -/
def time_curve_of (game : String) : ℚ → ℚ :=
  if game = "lol" then lol_time_curve else dota_time_curve

/-- The LoL objective log-odds contribution of
`ProbabilityEngineV2.calculate_from_state` (dragons, soul, elder, baron buff,
baron kills, inhibitors; `elif` chains become nested ifs). -/
def lol_objective_contrib (s : EnhancedGameState) : ℚ :=
  0.055 * ((s.team1_dragons - s.team2_dragons : ℤ) : ℚ)
  + (if s.team1_has_soul then 0.35 else if s.team2_has_soul then -0.35 else 0)
  + (if s.team1_has_elder then 0.50 else if s.team2_has_elder then -0.50 else 0)
  + (if s.team1_has_baron then 0.18 else if s.team2_has_baron then -0.18 else 0)
  + 0.08 * ((s.team1_barons - s.team2_barons : ℤ) : ℚ)
  + 0.22 * ((s.team1_inhibs - s.team2_inhibs : ℤ) : ℚ)

/-- The Dota objective log-odds contribution of
`ProbabilityEngineV2.calculate_from_state`. -/
def dota_objective_contrib (s : EnhancedGameState) : ℚ :=
  0.10 * ((s.team1_roshan - s.team2_roshan : ℤ) : ℚ)
  + (if s.team1_has_aegis then 0.12 else if s.team2_has_aegis then -0.12 else 0)
  + 0.20 * ((s.team1_rax - s.team2_rax : ℤ) : ℚ)

/-- The `team1_prob` computed by `ProbabilityEngineV2.calculate_from_state`:
prior log-odds plus time-weighted gold/kill/tower/objective contributions and
the momentum adjustment, converted back to a probability and clamped to
[0.02, 0.98]. -/
noncomputable def calculate_from_state_prob_v2 (game : String) (prior : ℝ)
    (momentum_adjustment : ℝ) (s : EnhancedGameState) : ℝ :=
  let tw : ℚ := if game = "lol" then get_time_weight LOL_TIME_WEIGHTS s.game_time_minutes else 1
  let gold_contrib : ℚ := (if game = "lol" then 0.045 else 0.035) * ((s.gold_diff : ℚ) / 1000) * tw
  let kill_contrib : ℚ := (if game = "lol" then 0.025 else 0.018) * (s.kill_diff : ℚ) * tw
  let tower_contrib : ℚ := (if game = "lol" then 0.065 else 0.055) * (s.tower_diff : ℚ) * tw
  let obj_contrib : ℚ := (if game = "lol" then lol_objective_contrib s else dota_objective_contrib s) * tw
  let log_odds : ℝ := prob_to_log_odds prior
    + ((gold_contrib + kill_contrib + tower_contrib + obj_contrib : ℚ) : ℝ)
    + momentum_adjustment
  max 0.02 (min 0.98 (log_odds_to_prob log_odds))

/-- The engine state of `ProbabilityEngineV2` that feeds back into
`team1_prob` (confidence / std-dev bookkeeping is carried by the source but
never influences the probability, so it is not tracked here). -/
structure EngineStateV2 where
  current_prob : ℝ
  prior_prob : ℝ
  game_time : ℚ
  events_processed : ℕ
  momentum : MomentumTracker
  recent_events : List (ℚ × String × ℕ)

/-- The three probability-updating operations of `ProbabilityEngineV2`. -/
inductive EngineOpV2 where
  | update_event (event_type : String) (team : ℕ) (ctx : EventContext)
  | update_fight (kills_team1 deaths_team1 : ℕ) (ctx : EventContext)
  | calc_state (state : EnhancedGameState)

/-- One engine update of `ProbabilityEngineV2`:
`update_from_event`, `update_from_fight` or `calculate_from_state`. -/
noncomputable def step_v2 (game : String) (s : EngineStateV2) : EngineOpV2 → EngineStateV2
  | .update_event et team ctx =>
      let impact := calculate_impact_v2 (base_impacts_of game) (time_curve_of game)
        s.recent_events et ctx team
      let adj := apply_probability_scalingR (impact : ℝ) s.current_prob
      let new_prob := max 0.02 (min 0.98 (s.current_prob + adj))
      { current_prob := new_prob, prior_prob := s.prior_prob,
        game_time := ctx.game_time, events_processed := s.events_processed + 1,
        momentum := add_event s.momentum ctx.game_time et team (abs impact),
        recent_events := track_event s.recent_events ctx.game_time et team }
  | .update_fight kills_team1 deaths_team1 ctx =>
      let kills_team2 := deaths_team1
      let impact := calculate_fight_impact_v2 (base_impacts_of game) (time_curve_of game)
        s.recent_events kills_team1 kills_team2 ctx 1
      let adj := apply_probability_scalingR (impact : ℝ) s.current_prob
      let new_prob := max 0.02 (min 0.98 (s.current_prob + adj))
      let winner : ℕ := if kills_team1 > kills_team2 then 1 else 2
      { current_prob := new_prob, prior_prob := s.prior_prob,
        game_time := ctx.game_time,
        events_processed := s.events_processed + kills_team1 + kills_team2,
        momentum := add_event s.momentum ctx.game_time ("teamfight") winner (abs impact * 1.5),
        recent_events := s.recent_events }
  | .calc_state st =>
      { current_prob := calculate_from_state_prob_v2 game s.prior_prob
          (get_momentum_adjustment s.momentum) st,
        prior_prob := s.prior_prob, game_time := st.game_time_minutes,
        events_processed := s.events_processed, momentum := s.momentum,
        recent_events := s.recent_events }

/-! ## V1 probability engine (probability_engine.py, class ProbabilityEngine) -/

/-- Source `Team` (models.py): live stats read by the V1 engine. -/
structure Team where
  name : String := ""
  kills : ℤ := 0
  deaths : ℤ := 0
  gold : ℤ := 0
  towers : ℤ := 0
  dragons : ℤ := 0
  barons : ℤ := 0
  has_dragon_soul : Bool := false
  has_elder : Bool := false
  has_baron_buff : Bool := false
  net_worth : ℤ := 0
  roshan_kills : ℤ := 0
  has_aegis : Bool := false

/-- Source `GameState` (models.py): the fields read by V1
`calculate_from_state` (match metadata elided). -/
structure GameState where
  game : String
  team1 : Team
  team2 : Team
  game_time_seconds : ℤ := 0

def GameState.game_time_minutes (s : GameState) : ℚ :=
  (s.game_time_seconds : ℚ) / 60

/-- Source `GameState.gold_diff`: gold for LoL, net worth for Dota. -/
def GameState.gold_diff (s : GameState) : ℤ :=
  if s.game = "lol" then s.team1.gold - s.team2.gold
  else s.team1.net_worth - s.team2.net_worth

def GameState.kill_diff (s : GameState) : ℤ := s.team1.kills - s.team2.kills

def GameState.tower_diff (s : GameState) : ℤ := s.team1.towers - s.team2.towers

/-- Source `ImpactCalculator` lookup-with-fallback shared by the ℚ and ℝ readings of
`get_event_impact`: the `(type, context)` key, then `(type, "default")`. -/
def lookup_impact (impacts : List ((String × String) × EventImpact))
    (event_type context : String) : Option EventImpact :=
  match impacts.lookup (str_lower event_type, str_lower context) with
  | some info => some info
  | none => impacts.lookup (str_lower event_type, "default")

/-- Source `ImpactCalculator._get_probability_multiplier`, real-valued (the V1 engine
probability lives in ℝ because of the sigmoid path). -/
def get_probability_multiplierR (p : ℝ) : ℝ :=
  max 0.5 (1 - |p - 0.5|)

/-- Source `ImpactCalculator.get_event_impact`, real-valued probability argument
(impact only). -/
def get_event_impactR (impacts : List ((String × String) × EventImpact))
    (time_mults : List ((ℚ × ℚ) × ℚ))
    (event_type context : String) (game_time : ℚ) (p : ℝ) : ℝ :=
  match lookup_impact impacts event_type context with
  | some info =>
      (info.base_impact : ℝ) * ((get_time_multiplier time_mults game_time : ℚ) : ℝ)
        * get_probability_multiplierR p
  | none => 0

/-- Source `ImpactCalculator.calculate_fight_impact` (impact only): fight size from
total deaths, scaled by kill advantage, time and probability multipliers,
negative when team 2 wins the fight, zero on an even trade. -/
def calculate_fight_impact_v1 (time_mults : List ((ℚ × ℚ) × ℚ))
    (kills_team1 deaths_team1 kills_team2 deaths_team2 : ℕ)
    (game_time_minutes : ℚ) (current_prob : ℝ) : ℝ :=
  let net_team1 : ℤ := (kills_team1 : ℤ) - (deaths_team1 : ℤ)
  let net_team2 : ℤ := (kills_team2 : ℤ) - (deaths_team2 : ℤ)
  let total_deaths : ℤ := (deaths_team1 : ℤ) + (deaths_team2 : ℤ)
  if net_team1 = net_team2 then 0
  else
    let kill_advantage : ℤ := if net_team1 > net_team2 then net_team1 else net_team2
    let base_impact : ℚ :=
      if 8 ≤ total_deaths then 0.08
      else if 5 ≤ total_deaths then 0.05
      else if 3 ≤ total_deaths then 0.03
      else 0.015
    let impact0 : ℚ := base_impact + ((kill_advantage : ℚ) - 1) * 0.008
    let impact1 : ℝ := (impact0 : ℝ)
      * ((get_time_multiplier time_mults game_time_minutes : ℚ) : ℝ)
      * get_probability_multiplierR current_prob
    if net_team2 > net_team1 then -impact1 else impact1

/-- Source `ProbabilityEngine._sigmoid_adjustment`:
`(2 / (1 + exp(-diff / scale)) - 1) * 0.4` (the float OverflowError guard is
unreachable over ℝ and saturates to the same limits). -/
noncomputable def sigmoid_adjustment (diff scale : ℚ) : ℝ :=
  (2 / (1 + Real.exp (-(diff : ℝ) / (scale : ℝ))) - 1) * 0.4

/-- Source `ProbabilityEngine._calculate_objective_adjustment`. -/
def calculate_objective_adjustment (game : String) (s : GameState) : ℚ :=
  if game = "lol" then
    ((s.team1.dragons - s.team2.dragons : ℤ) : ℚ) * 0.015
    + (if s.team1.has_dragon_soul then 0.10 else if s.team2.has_dragon_soul then -0.10 else 0)
    + (if s.team1.has_elder then 0.15 else if s.team2.has_elder then -0.15 else 0)
    + (if s.team1.has_baron_buff then 0.06 else if s.team2.has_baron_buff then -0.06 else 0)
    + ((s.team1.barons - s.team2.barons : ℤ) : ℚ) * 0.02
  else
    ((s.team1.roshan_kills - s.team2.roshan_kills : ℤ) : ℚ) * 0.03
    + (if s.team1.has_aegis then 0.04 else if s.team2.has_aegis then -0.04 else 0)

/-- Source `ProbabilityEngine._get_time_factor`. -/
def get_time_factor (t : ℚ) : ℚ :=
  if t < 5 then 0.6
  else if t < 10 then 0.7 + (t - 5) * 0.02
  else if t < 20 then 0.8 + (t - 10) * 0.02
  else if t < 30 then 1.0 + (t - 20) * 0.015
  else min 1.3 (1.15 + (t - 30) * 0.01)

/-- Source `ProbabilityEngine.__init__` gold scale: 8000 for LoL, 12000 for Dota. -/
def gold_scale_of (game : String) : ℚ :=
  if game = "lol" then 8000 else 12000

/-- The `team1_prob` computed by V1 `ProbabilityEngine.calculate_from_state`:
base 0.5 plus time-weighted gold sigmoid, kill, tower and objective
adjustments, clamped to [0.02, 0.98]. -/
noncomputable def calculate_from_state_prob_v1 (game : String) (s : GameState) : ℝ :=
  let gold_adj : ℝ := sigmoid_adjustment ((s.gold_diff : ℚ)) (gold_scale_of game)
  let kill_adj : ℚ := (s.kill_diff : ℚ) * 0.004
  let tower_adj : ℚ := (s.tower_diff : ℚ) * 0.015
  let obj_adj : ℚ := calculate_objective_adjustment game s
  let time_factor : ℚ := get_time_factor s.game_time_minutes
  let total_adj : ℝ := (gold_adj + ((kill_adj + tower_adj + obj_adj : ℚ) : ℝ))
    * ((time_factor : ℚ) : ℝ)
  max 0.02 (min 0.98 (0.5 + total_adj))

/-- Table selection from `ImpactCalculator.__init__`. -/
def impacts_of (game : String) : List ((String × String) × EventImpact) :=
  if game = "lol" then LOL_IMPACTS else DOTA_IMPACTS

/-- Table selection from `ImpactCalculator.__init__`. -/
def time_mults_of (game : String) : List ((ℚ × ℚ) × ℚ) :=
  if game = "lol" then LOL_TIME_MULTIPLIERS else DOTA_TIME_MULTIPLIERS

/-- The engine state of V1 `ProbabilityEngine`. -/
structure EngineStateV1 where
  current_prob : ℝ
  game_time : ℚ

/-- The three probability-updating operations of V1 `ProbabilityEngine`. -/
inductive EngineOpV1 where
  | update_event (event_type context : String) (team : ℕ)
  | update_fight (kills_t1 deaths_t1 kills_t2 deaths_t2 : ℕ)
  | calc_state (state : GameState)

/-- One engine update of V1 `ProbabilityEngine`: `update_from_event` (impact
negated for team 2, probability clamped), `update_from_fight`, or
`calculate_from_state`. -/
noncomputable def step_v1 (game : String) (s : EngineStateV1) : EngineOpV1 → EngineStateV1
  | .update_event et ctx team =>
      let impact0 := get_event_impactR (impacts_of game) (time_mults_of game)
        et ctx s.game_time s.current_prob
      let impact := if team = 2 then -impact0 else impact0
      { current_prob := max 0.02 (min 0.98 (s.current_prob + impact)),
        game_time := s.game_time }
  | .update_fight k1 d1 k2 d2 =>
      let impact := calculate_fight_impact_v1 (time_mults_of game) k1 d1 k2 d2
        s.game_time s.current_prob
      { current_prob := max 0.02 (min 0.98 (s.current_prob + impact)),
        game_time := s.game_time }
  | .calc_state st =>
      { current_prob := calculate_from_state_prob_v1 game st,
        game_time := st.game_time_minutes }

/-- The signed probability shift applied by V1
`ProbabilityEngine.update_from_event` before clamping (ℚ reading). -/
def v1_event_prob_shift (impacts : List ((String × String) × EventImpact))
    (time_mults : List ((ℚ × ℚ) × ℚ))
    (event_type context : String) (game_time p : ℚ) (team : ℕ) : ℚ :=
  let impact := (get_event_impact impacts time_mults event_type context game_time p).1
  if team = 2 then -impact else impact

/-! ## Edge calculator (trading/edge_calculator.py, class EdgeCalculator) -/

inductive OrderSide where
  | buy
  | sell
deriving DecidableEq

/-- Source `EdgeOpportunity` (reason strings elided to fixed tags). -/
structure EdgeOpportunity where
  has_edge : Bool
  side : Option OrderSide
  edge : ℚ
  fair_price : ℚ
  market_price : ℚ
  confidence : ℚ
  reason : String
deriving DecidableEq

/-- Common tail of `EdgeCalculator.calculate_edge` once a positive-edge side
has been picked: reject if `edge < min_edge / confidence`, then if
`edge < slippage_buffer`, else report a tradeable edge. -/
def edge_decision (min_edge slippage_buffer fair_price confidence edge : ℚ)
    (side : OrderSide) (market_price : ℚ) : EdgeOpportunity :=
  let adjusted_min_edge := min_edge / confidence
  if edge < adjusted_min_edge then
    ⟨false, some side, edge, fair_price, market_price, confidence, "below minimum"⟩
  else if edge < slippage_buffer then
    ⟨false, some side, edge, fair_price, market_price, confidence, "below slippage buffer"⟩
  else
    ⟨true, some side, edge, fair_price, market_price, confidence, "opportunity"⟩

/-- Source `EdgeCalculator.calculate_edge` (`min_edge` comes from
`config.trading.min_edge = 0.015`, `slippage_buffer = 0.005`; both kept as
parameters). -/
def calculate_edge (min_edge slippage_buffer : ℚ)
    (fair_price market_bid market_ask confidence : ℚ) : EdgeOpportunity :=
  if ¬(0 < fair_price ∧ fair_price < 1) then
    ⟨false, none, 0, fair_price, (market_bid + market_ask) / 2, 0, "Invalid fair price"⟩
  else
    let buy_edge := fair_price - market_ask
    let sell_edge := market_bid - fair_price
    if buy_edge > sell_edge ∧ buy_edge > 0 then
      edge_decision min_edge slippage_buffer fair_price confidence buy_edge
        OrderSide.buy market_ask
    else if sell_edge > buy_edge ∧ sell_edge > 0 then
      edge_decision min_edge slippage_buffer fair_price confidence sell_edge
        OrderSide.sell market_bid
    else
      ⟨false, none, max buy_edge sell_edge, fair_price, (market_bid + market_ask) / 2,
        confidence, "No positive edge"⟩

/-! ## Claim theorems -/

/-- C2: for every single-game win probability and every series score that is
reachable under the spec's SeriesState invariant (the win counters cannot both
be at the threshold, since the series is terminal as soon as one reaches it),
`series_probability` returns exactly 1 once `team1_wins` has reached
`games_to_win`, and exactly 0 once `team2_wins` has, independent of `p`. -/
theorem series_probability_boundary (fmt : SeriesFormat) (t1 t2 : ℕ)
    (nm1 nm2 : String) (p : ℚ)
    (hscore : ¬(games_to_win fmt ≤ t1 ∧ games_to_win fmt ≤ t2)) :
    (games_to_win fmt ≤ t1 → series_probability ⟨fmt, t1, t2, nm1, nm2⟩ p = 1) ∧
    (games_to_win fmt ≤ t2 → series_probability ⟨fmt, t1, t2, nm1, nm2⟩ p = 0) := by
  constructor
  · intro h
    simp only [series_probability]
    exact calc_series_prob_of_t1_done _ _ _ _ h
  · intro h
    have h1 : t1 < games_to_win fmt := by
      by_contra hc
      exact hscore ⟨Nat.le_of_not_lt hc, h⟩
    simp only [series_probability]
    exact calc_series_prob_of_t2_done _ _ _ _ h1 h

/-- Witness for C2: a decided BO5 at 3-1 has series probability exactly 1 and
a decided BO3 at 0-2 exactly 0, at `p = 0.55`. -/
theorem series_probability_boundary_witness :
    series_probability ⟨SeriesFormat.BO5, 3, 1, "T1", "GENG"⟩ (11/20) = 1 ∧
    series_probability ⟨SeriesFormat.BO3, 0, 2, "T1", "GENG"⟩ (11/20) = 0 :=
  ⟨(series_probability_boundary SeriesFormat.BO5 3 1 "T1" "GENG" (11/20)
      (by decide)).1 (by decide),
   (series_probability_boundary SeriesFormat.BO3 0 2 "T1" "GENG" (11/20)
      (by decide)).2 (by decide)⟩

/-- C5: the claim of a monotonically non-decreasing time curve fails on
`dota_time_curve`: at `t1 = 399/8 = 49.875 < 50 = t2` the curve drops from
`959/800 = 1.19875` to `23/20 = 1.15`, because the final piece starts at 1.15
while the previous linear piece tends to 1.2; the integrity of a non-decreasing
curve is the documented intent, so this is a slip in the final breakpoint
constant. -/
theorem dota_time_curve_decreases_at_50 :
    dota_time_curve 50 < dota_time_curve (399/8) := by
  norm_num [dota_time_curve, min_def]

/-- C6: the claimed continuity fails on `dota_time_curve` at the 50-minute
breakpoint: values on the fourth linear piece approach 1.2 (the value at
`t = 399/8` is `959/800 = 1.19875`), but the value at exactly 50 is
`23/20 = 1.15`, a jump of about 0.05 contradicting the calculator's own
"continuous functions instead of brackets" contract. -/
theorem dota_time_curve_discontinuous_at_50 :
    dota_time_curve 50 = 23/20 ∧ dota_time_curve (399/8) = 959/800 := by
  constructor <;> norm_num [dota_time_curve, min_def]

/-- C4: the claim that the incremental update scales impact by
`max(0.4, 1 - 2*(p - 0.5)^2)` fails on the V1 path: at current probability
`p = 0.7` the V1 probability multiplier is `0.8` (linear falloff), while the
claimed quadratic factor is `0.92`. -/
theorem v1_multiplier_not_quadratic :
    get_probability_multiplier 0.7 ≠ max 0.4 (1 - 2 * ((0.7 : ℚ) - 0.5)^2) := by
  norm_num [get_probability_multiplier, abs_of_nonneg]

/-- C4 (amended): the V2 incremental update scales the nominal impact exactly
by `max(0.4, 1 - 2*(p - 0.5)^2)` (quadratic falloff floored at 40%), while the
V1 lookup path scales it by `max(0.5, 1 - |p - 0.5|)` (linear falloff floored
at 50%); both hold for every current probability. -/
theorem probability_scaling_formulas (impact p : ℚ) :
    apply_probability_scaling impact p = impact * max 0.4 (1 - 2 * (p - 0.5)^2) ∧
    get_probability_multiplier p = max 0.5 (1 - |p - 0.5|) := by
  constructor
  · show impact * max 0.4 (1 - |p - 0.5| * |p - 0.5| * 2) = _
    rw [abs_mul_abs_self]
    ring_nf
  · rfl

/-- C3: the claim fails in its "small nonzero default" part: the V1
`get_event_impact` returns probability impact exactly 0 for an unknown event
type (here "ward"), not a small nonzero value; only the V2 calculator returns
the nonzero default 0.005. -/
theorem v1_unknown_event_impact_is_zero :
    (get_event_impact LOL_IMPACTS LOL_TIME_MULTIPLIERS ("ward") ("placed")
      15 (1/2)).1 = 0 := by
  unfold get_event_impact
  rw [(by decide :
        List.lookup (str_lower ("ward"), str_lower ("placed")) LOL_IMPACTS = none),
      (by decide :
        List.lookup (str_lower ("ward"), "default") LOL_IMPACTS = none)]

/-- C3 (amended): a lookup whose `(event_type, context)` key is absent falls
back to the `(event_type, "default")` entry; when the event type itself is
unknown the V1 calculator returns impact 0 (not nonzero) and the V2 base
lookup returns the small nonzero default 0.005; in all cases the lookups are
total, so no error is raised. -/
theorem impact_table_fallback
    (impacts : List ((String × String) × EventImpact))
    (tms : List ((ℚ × ℚ) × ℚ)) (t p : ℚ)
    (et1 ctx1 : String) (info : EventImpact)
    (h1 : impacts.lookup (str_lower et1, str_lower ctx1) = none)
    (h2 : impacts.lookup (str_lower et1, "default") = some info)
    (et2 ctx2 : String)
    (h3 : impacts.lookup (str_lower et2, str_lower ctx2) = none)
    (h4 : impacts.lookup (str_lower et2, "default") = none)
    (base_tbl : List (String × ℚ)) (et3 : String)
    (h5 : base_tbl.lookup et3 = none)
    (h6 : base_tbl.find? (fun kv => str_starts_with kv.1 et3) = none) :
    get_event_impact impacts tms et1 ctx1 t p
      = (info.base_impact * get_time_multiplier tms t * get_probability_multiplier p,
         info) ∧
    get_event_impact impacts tms et2 ctx2 t p = (0, ⟨0, 0, "Unknown event"⟩) ∧
    get_base_impact base_tbl et3 = 0.005 ∧ (0.005 : ℚ) ≠ 0 := by
  refine ⟨?_, ?_, ?_, by norm_num⟩
  · unfold get_event_impact
    rw [h1, h2]
  · unfold get_event_impact
    rw [h3, h4]
  · unfold get_base_impact
    rw [h5, h6]

/-- Witness for C3 (amended): the LoL table has no ("kill", "weird") key so the
lookup falls back to ("kill", "default"); "ward" is entirely unknown to both
the V1 table (impact 0) and the V2 base table (impact 0.005). -/
theorem impact_table_fallback_witness :
    get_event_impact LOL_IMPACTS LOL_TIME_MULTIPLIERS ("kill") ("weird") 15 (1/2)
      = ((0.006 : ℚ) * get_time_multiplier LOL_TIME_MULTIPLIERS 15
          * get_probability_multiplier (1/2), ⟨0.006, 300, "Kill"⟩) ∧
    get_event_impact LOL_IMPACTS LOL_TIME_MULTIPLIERS ("ward") ("weird") 15 (1/2)
      = (0, ⟨0, 0, "Unknown event"⟩) ∧
    get_base_impact LOL_BASE_IMPACTS ("ward") = 0.005 ∧ (0.005 : ℚ) ≠ 0 :=
  impact_table_fallback LOL_IMPACTS LOL_TIME_MULTIPLIERS 15 (1/2)
    "kill" "weird" ⟨0.006, 300, "Kill"⟩ (by decide) (by rfl)
    "ward" "weird" (by decide) (by decide)
    LOL_BASE_IMPACTS "ward" (by decide) (by decide)

lemma edge_decision_edge_eq (m sl f c e : ℚ) (side : OrderSide) (mp : ℚ) :
    (edge_decision m sl f c e side mp).edge = e := by
  unfold edge_decision
  dsimp only
  split_ifs <;> rfl

lemma edge_decision_min_edge (m sl f c e : ℚ) (side : OrderSide) (mp : ℚ)
    (hc : 0 < c) (h : (edge_decision m sl f c e side mp).has_edge = true) :
    m ≤ c * e := by
  unfold edge_decision at h
  dsimp only at h
  split_ifs at h with h1 h2
  have hle : m / c ≤ e := le_of_not_lt h1
  calc m = (m / c) * c := by field_simp
  _ ≤ e * c := mul_le_mul_of_nonneg_right hle (le_of_lt hc)
  _ = c * e := mul_comm _ _

/-- C10: whenever `EdgeCalculator.calculate_edge` reports a tradeable edge
(`has_edge = True`) with a confidence in (0, 1], the raw edge times the
confidence is at least the configured minimum edge: the code compares the edge
against `min_edge / confidence`, which for positive confidence is equivalent
to comparing `edge * confidence` against `min_edge`. -/
theorem tradeable_requires_confidence_weighted_edge
    (min_edge slippage fair bid ask conf : ℚ) (hc0 : 0 < conf) (hc1 : conf ≤ 1)
    (h : (calculate_edge min_edge slippage fair bid ask conf).has_edge = true) :
    min_edge ≤ conf * (calculate_edge min_edge slippage fair bid ask conf).edge := by
  unfold calculate_edge at h ⊢
  dsimp only at h ⊢
  split_ifs at h ⊢ with hv hb hs
  · rw [edge_decision_edge_eq]
    exact edge_decision_min_edge _ _ _ _ _ _ _ hc0 h
  · rw [edge_decision_edge_eq]
    exact edge_decision_min_edge _ _ _ _ _ _ _ hc0 h

/-- Witness for C10: fair price 0.60 against a 0.50 market with full
confidence has a 0.10 buy edge, is reported tradeable, and
`conf * edge = 0.10 ≥ 0.015 = min_edge`. -/
theorem tradeable_requires_confidence_weighted_edge_witness :
    (3/200 : ℚ) ≤ 1 * (calculate_edge (3/200) (1/200) (3/5) (1/2) (1/2) 1).edge :=
  tradeable_requires_confidence_weighted_edge (3/200) (1/200) (3/5) (1/2) (1/2) 1
    (by norm_num) (by norm_num)
    (by norm_num [calculate_edge, edge_decision])

/-- C7: the claimed team-1/team-2 antisymmetry fails for the V2 impact
calculation: a kill at 15 minutes with the acting side 6000 gold ahead gets
the snowball factor 0.88 when credited to team 1 but the comeback factor 1.25
when the same context is evaluated for team 2, so the two impacts
(11/2500 = +0.0044 and -1/160 = -0.00625) are not negations of each other. -/
theorem v2_impact_not_antisymmetric :
    calculate_impact_v2 LOL_BASE_IMPACTS lol_time_curve [] ("kill")
        { game_time := 15, gold_diff := 6000 } 2
      ≠ -(calculate_impact_v2 LOL_BASE_IMPACTS lol_time_curve [] ("kill")
        { game_time := 15, gold_diff := 6000 } 1) := by
  have hbase : get_base_impact LOL_BASE_IMPACTS ("kill") = 0.006 := rfl
  norm_num [calculate_impact_v2, hbase, lol_time_curve, get_context_multiplier,
    get_momentum_multiplier, str_starts_with, List.isPrefixOf]

/-- C7 (amended): the V1 update path is exactly antisymmetric — the signed
probability shift applied for a team-2 event is the negation of the shift the
identical event would get for team 1, before clamping — and the V2 impact
calculation is antisymmetric whenever the event context is team-neutral
(zero gold differential, no tracked streak events); the correction is needed
because the V2 comeback/snowball context factor reads the gold differential
from the acting team's perspective. -/
theorem impact_symmetry_amended
    (impacts : List ((String × String) × EventImpact))
    (tms : List ((ℚ × ℚ) × ℚ)) (et1 ctx1 : String) (t p : ℚ)
    (tbl : List (String × ℚ)) (curve : ℚ → ℚ) (et2 : String) (ctx : EventContext)
    (hg : ctx.gold_diff = 0) :
    v1_event_prob_shift impacts tms et1 ctx1 t p 2
      = -(v1_event_prob_shift impacts tms et1 ctx1 t p 1) ∧
    calculate_impact_v2 tbl curve [] et2 ctx 2
      = -(calculate_impact_v2 tbl curve [] et2 ctx 1) := by
  constructor
  · unfold v1_event_prob_shift
    simp
  · have hctx : get_context_multiplier et2 ctx 2 = get_context_multiplier et2 ctx 1 := by
      unfold get_context_multiplier
      rw [hg]
      norm_num
    have hmom : get_momentum_multiplier [] ctx 2 = get_momentum_multiplier [] ctx 1 := by
      unfold get_momentum_multiplier
      simp [List.filter]
    unfold calculate_impact_v2
    rw [hctx, hmom]
    norm_num

/-- Witness for C7 (amended): a baron steal for team 2 at 28 minutes shifts
the V1 probability by exactly the negation of the team-1 shift, and a V2 kill
in a neutral context (zero gold differential) is likewise antisymmetric. -/
theorem impact_symmetry_amended_witness :
    v1_event_prob_shift LOL_IMPACTS LOL_TIME_MULTIPLIERS ("baron") ("steal")
        28 (9/20) 2
      = -(v1_event_prob_shift LOL_IMPACTS LOL_TIME_MULTIPLIERS ("baron") ("steal")
        28 (9/20) 1) ∧
    calculate_impact_v2 LOL_BASE_IMPACTS lol_time_curve [] ("kill")
        { game_time := 15 } 2
      = -(calculate_impact_v2 LOL_BASE_IMPACTS lol_time_curve [] ("kill")
        { game_time := 15 } 1) :=
  impact_symmetry_amended LOL_IMPACTS LOL_TIME_MULTIPLIERS "baron" "steal"
    28 (9/20) LOL_BASE_IMPACTS lol_time_curve "kill" { game_time := 15 } rfl

/-- C9: the contribution of a single tracked event (one summand of
`get_momentum_score`) with positive recorded impact strictly decreases in
magnitude as the elapsed time grows, tends to zero as the clock runs on, and
never flips sign: non-negative for a team-1 event and non-positive for a
team-2 event. -/
theorem momentum_contribution_decay (decay impact game_time : ℚ) (et : String)
    (team : ℕ) (hdecay : 0 < decay) (himpact : 0 < impact) :
    (∀ c1 c2 : ℝ, c1 < c2 →
        |event_contribution decay c2 ⟨game_time, et, team, impact⟩|
          < |event_contribution decay c1 ⟨game_time, et, team, impact⟩|) ∧
    Filter.Tendsto
      (fun c : ℝ => event_contribution decay c ⟨game_time, et, team, impact⟩)
      Filter.atTop (nhds 0) ∧
    (team = 1 →
      ∀ c : ℝ, 0 ≤ event_contribution decay c ⟨game_time, et, team, impact⟩) ∧
    (team ≠ 1 →
      ∀ c : ℝ, event_contribution decay c ⟨game_time, et, team, impact⟩ ≤ 0) := by
  have hI : (0 : ℝ) < (impact : ℝ) := by exact_mod_cast himpact
  have hd : (0 : ℝ) < (decay : ℝ) := by exact_mod_cast hdecay
  have habs : ∀ c : ℝ,
      |event_contribution decay c ⟨game_time, et, team, impact⟩|
        = (impact : ℝ) * Real.exp (-(c - (game_time : ℝ)) / (decay : ℝ)) := by
    intro c
    unfold event_contribution
    rw [abs_mul, abs_mul, abs_of_pos hI, abs_of_pos (Real.exp_pos _)]
    rcases eq_or_ne team 1 with h | h <;> simp [h]
  refine ⟨?_, ?_, ?_, ?_⟩
  · intro c1 c2 hlt
    rw [habs, habs]
    refine mul_lt_mul_of_pos_left ?_ hI
    rw [Real.exp_lt_exp]
    rw [div_lt_div_iff_of_pos_right hd]
    linarith
  · have h1 : Filter.Tendsto (fun c : ℝ => c - (game_time : ℝ))
        Filter.atTop Filter.atTop := by
      simpa [sub_eq_add_neg] using
        Filter.tendsto_atTop_add_const_right Filter.atTop (-(game_time : ℝ))
          Filter.tendsto_id
    have h2 : Filter.Tendsto (fun c : ℝ => -(c - (game_time : ℝ)))
        Filter.atTop Filter.atBot := Filter.tendsto_neg_atTop_atBot.comp h1
    have h3 : Filter.Tendsto (fun c : ℝ => -(c - (game_time : ℝ)) / (decay : ℝ))
        Filter.atTop Filter.atBot := h2.atBot_div_const hd
    have h4 : Filter.Tendsto
        (fun c : ℝ => Real.exp (-(c - (game_time : ℝ)) / (decay : ℝ)))
        Filter.atTop (nhds 0) := Real.tendsto_exp_atBot.comp h3
    have h5 := (h4.const_mul (impact : ℝ)).mul_const
      (if team = 1 then (1 : ℝ) else -1)
    simpa [event_contribution] using h5
  · intro h c
    unfold event_contribution
    rw [h]
    have hs : (if (1 : ℕ) = 1 then (1 : ℝ) else -1) = 1 := by norm_num
    rw [hs, mul_one]
    exact le_of_lt (mul_pos hI (Real.exp_pos _))
  · intro h c
    unfold event_contribution
    rw [if_neg h]
    have : (0 : ℝ) < (impact : ℝ) * Real.exp (-(c - (game_time : ℝ)) / (decay : ℝ)) :=
      mul_pos hI (Real.exp_pos _)
    nlinarith

/-- Witness for C9: for the default decay constant 3 and a kill of impact
0.01 at minute 5, the magnitude of the contribution at clock 7 is strictly
below the magnitude at clock 6. -/
theorem momentum_contribution_decay_witness :
    |event_contribution 3 7 ⟨5, "kill", 1, 1/100⟩|
      < |event_contribution 3 6 ⟨5, "kill", 1, 1/100⟩| :=
  (momentum_contribution_decay 3 (1/100) 5 "kill" 1 (by norm_num)
    (by norm_num)).1 6 7 (by norm_num)

lemma clamp_mem (x : ℝ) : max 0.02 (min 0.98 x) ∈ Set.Icc (0.02 : ℝ) 0.98 :=
  ⟨le_max_left _ _, max_le (by norm_num) (min_le_left _ _)⟩

lemma step_v2_prob_mem (game : String) (s : EngineStateV2) (op : EngineOpV2) :
    (step_v2 game s op).current_prob ∈ Set.Icc (0.02 : ℝ) 0.98 := by
  cases op <;>
    simp only [step_v2, calculate_from_state_prob_v2] <;>
    exact clamp_mem _

lemma step_v1_prob_mem (game : String) (s : EngineStateV1) (op : EngineOpV1) :
    (step_v1 game s op).current_prob ∈ Set.Icc (0.02 : ℝ) 0.98 := by
  cases op <;>
    simp only [step_v1, calculate_from_state_prob_v1] <;>
    exact clamp_mem _

lemma foldl_step_v2_prob_mem (game : String) (ops : List EngineOpV2)
    (s : EngineStateV2) (h : ops ≠ []) :
    ((ops.foldl (step_v2 game) s).current_prob) ∈ Set.Icc (0.02 : ℝ) 0.98 := by
  induction ops generalizing s with
  | nil => exact absurd rfl h
  | cons op rest ih =>
    rw [List.foldl_cons]
    cases rest with
    | nil => rw [List.foldl_nil]; exact step_v2_prob_mem game s op
    | cons b t => exact ih (step_v2 game s op) (List.cons_ne_nil _ _)

lemma foldl_step_v1_prob_mem (game : String) (ops : List EngineOpV1)
    (s : EngineStateV1) (h : ops ≠ []) :
    ((ops.foldl (step_v1 game) s).current_prob) ∈ Set.Icc (0.02 : ℝ) 0.98 := by
  induction ops generalizing s with
  | nil => exact absurd rfl h
  | cons op rest ih =>
    rw [List.foldl_cons]
    cases rest with
    | nil => rw [List.foldl_nil]; exact step_v1_prob_mem game s op
    | cons b t => exact ih (step_v1 game s op) (List.cons_ne_nil _ _)

/-- C1: for every sequence of update operations (`update_from_event`,
`update_from_fight`, `calculate_from_state`) applied to either probability
engine from any starting state, the team-1 probability after any update lies
in [0.02, 0.98]: every update path ends in the hard clamp
`max(0.02, min(0.98, ·))`. -/
theorem clamp_invariant
    (gameA : String) (initA : EngineStateV2) (opsA : List EngineOpV2)
    (hA : opsA ≠ [])
    (gameB : String) (initB : EngineStateV1) (opsB : List EngineOpV1)
    (hB : opsB ≠ []) :
    (opsA.foldl (step_v2 gameA) initA).current_prob ∈ Set.Icc (0.02 : ℝ) 0.98 ∧
    (opsB.foldl (step_v1 gameB) initB).current_prob ∈ Set.Icc (0.02 : ℝ) 0.98 :=
  ⟨foldl_step_v2_prob_mem gameA opsA initA hA,
   foldl_step_v1_prob_mem gameB opsB initB hB⟩

/-- Witness for C1: one full-state recompute on the V2 engine and one kill
update on the V1 engine, both from a 50% prior, land in [0.02, 0.98]. -/
theorem clamp_invariant_witness :
    (([EngineOpV2.calc_state {}] : List EngineOpV2).foldl (step_v2 "lol")
        ⟨1/2, 1/2, 0, 0, {}, []⟩).current_prob ∈ Set.Icc (0.02 : ℝ) 0.98 ∧
    (([EngineOpV1.update_event ("kill") ("solo") 1] : List EngineOpV1).foldl
        (step_v1 "lol") ⟨1/2, 0⟩).current_prob ∈ Set.Icc (0.02 : ℝ) 0.98 :=
  clamp_invariant "lol" ⟨1/2, 1/2, 0, 0, {}, []⟩ [EngineOpV2.calc_state {}]
    (List.cons_ne_nil _ _)
    "lol" ⟨1/2, 0⟩ [EngineOpV1.update_event ("kill") ("solo") 1]
    (List.cons_ne_nil _ _)

lemma csp_bounds : ∀ (k n t1 t2 : ℕ) (p : ℚ), (n - t1) + (n - t2) ≤ k →
    0 ≤ p → p ≤ 1 →
    0 ≤ calc_series_prob n t1 t2 p ∧ calc_series_prob n t1 t2 p ≤ 1 := by
  intro k
  induction k with
  | zero =>
    intro n t1 t2 p hk hp0 hp1
    rw [calc_series_prob_of_t1_done n t1 t2 p (by omega)]
    norm_num
  | succ k ih =>
    intro n t1 t2 p hk hp0 hp1
    by_cases h1 : n ≤ t1
    · rw [calc_series_prob_of_t1_done n t1 t2 p h1]; norm_num
    · by_cases h2 : n ≤ t2
      · rw [calc_series_prob_of_t2_done n t1 t2 p (by omega) h2]; norm_num
      · rw [calc_series_prob_rec n t1 t2 p (by omega) (by omega)]
        have hA := ih n (t1 + 1) t2 p (by omega) hp0 hp1
        have hB := ih n t1 (t2 + 1) p (by omega) hp0 hp1
        constructor
        · have m1 : 0 ≤ p * calc_series_prob n (t1 + 1) t2 p :=
            mul_nonneg hp0 hA.1
          have m2 : 0 ≤ (1 - p) * calc_series_prob n t1 (t2 + 1) p :=
            mul_nonneg (by linarith) hB.1
          linarith
        · have m1 : p * calc_series_prob n (t1 + 1) t2 p ≤ p * 1 :=
            mul_le_mul_of_nonneg_left hA.2 hp0
          have m2 : (1 - p) * calc_series_prob n t1 (t2 + 1) p ≤ (1 - p) * 1 :=
            mul_le_mul_of_nonneg_left hB.2 (by linarith)
          linarith

lemma csp_nonneg (n t1 t2 : ℕ) (p : ℚ) (hp0 : 0 ≤ p) (hp1 : p ≤ 1) :
    0 ≤ calc_series_prob n t1 t2 p :=
  (csp_bounds ((n - t1) + (n - t2)) n t1 t2 p le_rfl hp0 hp1).1

lemma csp_le_one (n t1 t2 : ℕ) (p : ℚ) (hp0 : 0 ≤ p) (hp1 : p ≤ 1) :
    calc_series_prob n t1 t2 p ≤ 1 :=
  (csp_bounds ((n - t1) + (n - t2)) n t1 t2 p le_rfl hp0 hp1).2

lemma csp_swap : ∀ (k n t1 t2 : ℕ) (p : ℚ), (n - t1) + (n - t2) ≤ k →
    0 ≤ p → p ≤ 1 →
    calc_series_prob n t1 (t2 + 1) p ≤ calc_series_prob n (t1 + 1) t2 p := by
  intro k
  induction k with
  | zero =>
    intro n t1 t2 p hk hp0 hp1
    rw [calc_series_prob_of_t1_done n t1 (t2 + 1) p (by omega),
        calc_series_prob_of_t1_done n (t1 + 1) t2 p (by omega)]
  | succ k ih =>
    intro n t1 t2 p hk hp0 hp1
    by_cases h1 : n ≤ t1
    · rw [calc_series_prob_of_t1_done n t1 (t2 + 1) p h1,
          calc_series_prob_of_t1_done n (t1 + 1) t2 p (by omega)]
    · by_cases h3 : n ≤ t1 + 1
      · rw [calc_series_prob_of_t1_done n (t1 + 1) t2 p h3]
        exact csp_le_one n t1 (t2 + 1) p hp0 hp1
      · by_cases h4 : n ≤ t2 + 1
        · rw [calc_series_prob_of_t2_done n t1 (t2 + 1) p (by omega) h4]
          exact csp_nonneg n (t1 + 1) t2 p hp0 hp1
        · rw [calc_series_prob_rec n t1 (t2 + 1) p (by omega) (by omega),
              calc_series_prob_rec n (t1 + 1) t2 p (by omega) (by omega)]
          have ih1 := ih n (t1 + 1) t2 p (by omega) hp0 hp1
          have ih2 := ih n t1 (t2 + 1) p (by omega) hp0 hp1
          have m1 : p * calc_series_prob n (t1 + 1) (t2 + 1) p
              ≤ p * calc_series_prob n (t1 + 1 + 1) t2 p :=
            mul_le_mul_of_nonneg_left ih1 hp0
          have m2 : (1 - p) * calc_series_prob n t1 (t2 + 1 + 1) p
              ≤ (1 - p) * calc_series_prob n (t1 + 1) (t2 + 1) p :=
            mul_le_mul_of_nonneg_left ih2 (by linarith)
          linarith

lemma csp_mono : ∀ (k n t1 t2 : ℕ) (p q : ℚ), (n - t1) + (n - t2) ≤ k →
    0 ≤ p → p ≤ q → q ≤ 1 →
    calc_series_prob n t1 t2 p ≤ calc_series_prob n t1 t2 q := by
  intro k
  induction k with
  | zero =>
    intro n t1 t2 p q hk hp0 hpq hq1
    rw [calc_series_prob_of_t1_done n t1 t2 p (by omega),
        calc_series_prob_of_t1_done n t1 t2 q (by omega)]
  | succ k ih =>
    intro n t1 t2 p q hk hp0 hpq hq1
    by_cases h1 : n ≤ t1
    · rw [calc_series_prob_of_t1_done n t1 t2 p h1,
          calc_series_prob_of_t1_done n t1 t2 q h1]
    · by_cases h2 : n ≤ t2
      · rw [calc_series_prob_of_t2_done n t1 t2 p (by omega) h2,
            calc_series_prob_of_t2_done n t1 t2 q (by omega) h2]
      · rw [calc_series_prob_rec n t1 t2 p (by omega) (by omega),
            calc_series_prob_rec n t1 t2 q (by omega) (by omega)]
        have hq0 : 0 ≤ q := le_trans hp0 hpq
        have hp1 : p ≤ 1 := le_trans hpq hq1
        have hAm := ih n (t1 + 1) t2 p q (by omega) hp0 hpq hq1
        have hBm := ih n t1 (t2 + 1) p q (by omega) hp0 hpq hq1
        have hswap := csp_swap ((n - t1) + (n - t2)) n t1 t2 p le_rfl hp0 hp1
        have m1 : q * calc_series_prob n (t1 + 1) t2 p
            ≤ q * calc_series_prob n (t1 + 1) t2 q :=
          mul_le_mul_of_nonneg_left hAm hq0
        have m2 : (1 - q) * calc_series_prob n t1 (t2 + 1) p
            ≤ (1 - q) * calc_series_prob n t1 (t2 + 1) q :=
          mul_le_mul_of_nonneg_left hBm (by linarith)
        have m3 : (q - p) * calc_series_prob n t1 (t2 + 1) p
            ≤ (q - p) * calc_series_prob n (t1 + 1) t2 p :=
          mul_le_mul_of_nonneg_left hswap (by linarith)
        nlinarith [m1, m2, m3]

lemma csp_lt_one : ∀ (k n t1 t2 : ℕ) (p : ℚ), (n - t1) + (n - t2) ≤ k →
    t1 < n → 0 ≤ p → p < 1 → calc_series_prob n t1 t2 p < 1 := by
  intro k
  induction k with
  | zero =>
    intro n t1 t2 p hk ht1 hp0 hp1
    omega
  | succ k ih =>
    intro n t1 t2 p hk ht1 hp0 hp1
    by_cases h2 : n ≤ t2
    · rw [calc_series_prob_of_t2_done n t1 t2 p ht1 h2]
      norm_num
    · rw [calc_series_prob_rec n t1 t2 p ht1 (by omega)]
      have hB := ih n t1 (t2 + 1) p (by omega) ht1 hp0 hp1
      have hA := csp_le_one n (t1 + 1) t2 p hp0 (le_of_lt hp1)
      have m1 : p * calc_series_prob n (t1 + 1) t2 p ≤ p * 1 :=
        mul_le_mul_of_nonneg_left hA hp0
      have m2 : (1 - p) * calc_series_prob n t1 (t2 + 1) p < (1 - p) * 1 :=
        mul_lt_mul_of_pos_left hB (by linarith)
      linarith

lemma csp_strict : ∀ (k n t1 t2 : ℕ) (p q : ℚ), (n - t1) + (n - t2) ≤ k →
    t1 < n → t2 < n → 0 ≤ p → p < q → q ≤ 1 →
    calc_series_prob n t1 t2 p < calc_series_prob n t1 t2 q := by
  intro k
  induction k with
  | zero =>
    intro n t1 t2 p q hk ht1 ht2 hp0 hpq hq1
    omega
  | succ k ih =>
    intro n t1 t2 p q hk ht1 ht2 hp0 hpq hq1
    have hq0 : 0 < q := lt_of_le_of_lt hp0 hpq
    have hp1 : p < 1 := lt_of_lt_of_le hpq hq1
    rw [calc_series_prob_rec n t1 t2 p ht1 ht2,
        calc_series_prob_rec n t1 t2 q ht1 ht2]
    have hBm := csp_mono ((n - t1) + (n - (t2 + 1))) n t1 (t2 + 1) p q le_rfl
      hp0 (le_of_lt hpq) hq1
    by_cases hA1 : n ≤ t1 + 1
    · rw [calc_series_prob_of_t1_done n (t1 + 1) t2 p hA1,
          calc_series_prob_of_t1_done n (t1 + 1) t2 q hA1]
      have hBlt := csp_lt_one ((n - t1) + (n - (t2 + 1))) n t1 (t2 + 1) p le_rfl
        ht1 hp0 hp1
      have m2 : (1 - q) * calc_series_prob n t1 (t2 + 1) p
          ≤ (1 - q) * calc_series_prob n t1 (t2 + 1) q :=
        mul_le_mul_of_nonneg_left hBm (by linarith)
      have m3 : (q - p) * calc_series_prob n t1 (t2 + 1) p < (q - p) * 1 :=
        mul_lt_mul_of_pos_left hBlt (by linarith)
      nlinarith [m2, m3]
    · have hAst := ih n (t1 + 1) t2 p q (by omega) (by omega) ht2 hp0 hpq hq1
      have hswap := csp_swap ((n - t1) + (n - t2)) n t1 t2 p le_rfl hp0
        (le_of_lt hp1)
      have m1 : q * calc_series_prob n (t1 + 1) t2 p
          < q * calc_series_prob n (t1 + 1) t2 q :=
        mul_lt_mul_of_pos_left hAst hq0
      have m2 : (1 - q) * calc_series_prob n t1 (t2 + 1) p
          ≤ (1 - q) * calc_series_prob n t1 (t2 + 1) q :=
        mul_le_mul_of_nonneg_left hBm (by linarith)
      have m3 : (q - p) * calc_series_prob n t1 (t2 + 1) p
          ≤ (q - p) * calc_series_prob n (t1 + 1) t2 p :=
        mul_le_mul_of_nonneg_left hswap (by linarith)
      nlinarith [m1, m2, m3]

/-- C8: for a fixed unfinished series score (neither side has reached
`games_to_win`), `series_probability` is strictly increasing in the
single-game win probability: `p < q` within [0, 1] gives a strictly smaller
series probability at `p` than at `q`. -/
theorem series_probability_strict_mono (s : SeriesState) (p q : ℚ)
    (h1 : s.team1_wins < games_to_win s.format)
    (h2 : s.team2_wins < games_to_win s.format)
    (hp0 : 0 ≤ p) (hpq : p < q) (hq1 : q ≤ 1) :
    series_probability s p < series_probability s q :=
  csp_strict ((games_to_win s.format - s.team1_wins)
      + (games_to_win s.format - s.team2_wins))
    (games_to_win s.format) s.team1_wins s.team2_wins p q le_rfl h1 h2 hp0 hpq hq1

/-- Witness for C8: a best-of-five at score 2-1 is unfinished, and raising the
single-game probability from 0.50 to 0.55 strictly raises the series
probability (from 0.75 to 0.7975 per the spec scenario). -/
theorem series_probability_strict_mono_witness :
    series_probability ⟨SeriesFormat.BO5, 2, 1, "T1", "GENG"⟩ (1/2)
      < series_probability ⟨SeriesFormat.BO5, 2, 1, "T1", "GENG"⟩ (11/20) :=
  series_probability_strict_mono ⟨SeriesFormat.BO5, 2, 1, "T1", "GENG"⟩
    (1/2) (11/20) (by decide) (by decide) (by norm_num) (by norm_num) (by norm_num)
